import Mathlib

/- Verification of the AI4Water experiment-orchestration and hyperparameter
   search-space core, shallowly embedded from:
     - ai4water/experiments/_main.py   (Experiments orchestrator)
     - ai4water/experiments/_dl.py     (DLRegressionExperiments static space)
     - ai4water/hyperopt/_space.py     (Real / Integer / Categorical parameters)
   Floating-point metric values are modelled by the type `Val`, which keeps the
   finite / NaN / +inf / -inf distinction that the code branches on
   (`math.isfinite`, `dropna`, comparisons); finite values are rationals. -/

namespace AI4W

/-- Scalar value produced by a floating-point metric computation: a finite
rational, NaN, or a signed infinity. -/
inductive Val where
  | fin (q : ℚ)
  | nan
  | inf
  | ninf
deriving DecidableEq, Repr

/-- `math.isfinite` on a `Val`. -/
def Val.isFinite : Val → Bool
  | .fin _ => true
  | _ => false

/-- `1.0 - v` with IEEE-754 behaviour on the special values. -/
def Val.oneMinus : Val → Val
  | .fin q => .fin (1 - q)
  | .nan => .nan
  | .inf => .ninf
  | .ninf => .inf

/-- Python `s.startswith(p)` (character-list implementation so that concrete
instances evaluate in the kernel). -/
def strStartsWith (s p : String) : Bool := p.data.isPrefixOf s.data

/-- Python dict assignment `d[k] = v`: overwrite the entry for `k` in place if
present, otherwise append it. -/
def dictSet {α β : Type} [DecidableEq α] : List (α × β) → α → β → List (α × β)
  | [], k, v => [(k, v)]
  | (k0, v0) :: rest, k, v =>
    if k0 = k then (k0, v) :: rest else (k0, v0) :: dictSet rest k v

/-- Python dict read `d[k]` (first matching key). -/
def dictGet {α β : Type} [DecidableEq α] : List (α × β) → α → Option β
  | [], _ => none
  | (k0, v0) :: rest, k => if k0 = k then some v0 else dictGet rest k

theorem dictGet_dictSet {α β : Type} [DecidableEq α]
    (l : List (α × β)) (k : α) (v : β) :
    dictGet (dictSet l k v) k = some v := by
  induction l with
  | nil => simp [dictSet, dictGet]
  | cons hd tl ih =>
    by_cases h : hd.1 = k
    · simp [dictSet, dictGet, h]
    · simp [dictSet, dictGet, h, ih]

theorem dictGet_map_self {β : Type} (f : String → β) (l : List String)
    (m : String) (hm : m ∈ l) :
    dictGet (l.map (fun x => (x, f x))) m = some (f m) := by
  induction l with
  | nil => cases hm
  | cons hd tl ih =>
    by_cases h : hd = m
    · subst h; simp [dictGet]
    · have h' : m ∈ tl := by
        rcases List.mem_cons.mp hm with h2 | h2
        · exact absurd h2.symm h
        · exact h2
      simp [dictGet, h, ih h']

/-! ### `Experiments._evaluate` (experiments/_main.py lines 1332-1360) -/

/-- The metric names tested by `Experiments._evaluate` line 1352-1353: when the
model's validation metric is one of these, the scalar objective is
`1.0 - val_score`. -/
def maximizingMetrics : List String :=
  ["r2", "nse", "kge", "r2_mod", "r2_adj", "r2_score", "accuracy", "f1_score"]

/-- Per-variant trial-recording state: `self.model_iter_metric` (a dict from
iteration index to the per-metric snapshot) and `self.iter_`. -/
structure IterState where
  modelIterMetric : List (ℕ × List (String × Val))
  iter : ℕ

/-- Result of one `_evaluate` call: the updated recording state and the scalar
objective returned to the optimization backend. -/
structure EvalResult where
  state : IterState
  score : Val

/-- Lines 1350-1354 of `_evaluate`: read the designated validation metric and
orient it (`1.0 - val_score` for larger-is-better metrics). `metricOf` stands
for the external SeqMetrics computation on the (true, predicted) arrays. -/
def deriveValScore (metricOf : String → Val) (valMetric : String) : Val :=
  let valScore := metricOf valMetric
  if valMetric ∈ maximizingMetrics then valScore.oneMinus else valScore

/-- `Experiments._evaluate`: compute every monitored metric, record the raw
snapshot under the current iteration index, advance the iteration counter,
derive the scalar objective from the designated validation metric, and replace
a non-finite objective by the sentinel 9999. -/
def evaluateTrial (monitor : List String) (metricOf : String → Val)
    (valMetric : String) (st : IterState) : EvalResult :=
  let testMetrics := monitor.map (fun m => (m, metricOf m))
  let st1 : IterState :=
    { modelIterMetric := dictSet st.modelIterMetric st.iter testMetrics
      iter := st.iter + 1 }
  let valScore := deriveValScore metricOf valMetric
  let valScore := if valScore.isFinite then valScore else Val.fin 9999
  { state := st1, score := valScore }

theorem sentinel_isFinite (v : Val) :
    (if v.isFinite then v else Val.fin 9999).isFinite = true := by
  cases v <;> simp [Val.isFinite]

/-- C1: the scalar objective returned to the optimization backend is always
finite; when the derived validation-metric score is non-finite it is replaced
by the sentinel 9999; and the raw per-metric snapshot (containing, in
particular, the raw value of the validation metric whenever it is monitored)
is recorded under the trial's iteration index. -/
theorem c1_nonfinite_sentinel_raw_recorded
    (monitor : List String) (metricOf : String → Val) (valMetric : String)
    (st : IterState) :
    (evaluateTrial monitor metricOf valMetric st).score.isFinite = true ∧
    ((deriveValScore metricOf valMetric).isFinite = false →
      (evaluateTrial monitor metricOf valMetric st).score = Val.fin 9999) ∧
    dictGet (evaluateTrial monitor metricOf valMetric st).state.modelIterMetric
        st.iter = some (monitor.map (fun m => (m, metricOf m))) ∧
    (valMetric ∈ monitor →
      (valMetric, metricOf valMetric) ∈ monitor.map (fun m => (m, metricOf m))) := by
  refine ⟨?_, ?_, ?_, ?_⟩
  · exact sentinel_isFinite (deriveValScore metricOf valMetric)
  · intro h
    simp [evaluateTrial, h]
  · exact dictGet_dictSet _ _ _
  · intro h
    exact List.mem_map.mpr ⟨valMetric, h, rfl⟩

theorem c1_nonfinite_sentinel_raw_recorded_witness :
    ((deriveValScore (fun m => if m = "r2" then Val.nan else Val.fin 2)
        "r2").isFinite = false) ∧
    ("r2" ∈ ["r2", "mse"]) ∧
    (evaluateTrial ["r2", "mse"] (fun m => if m = "r2" then Val.nan else Val.fin 2)
        "r2" ⟨[], 0⟩).score = Val.fin 9999 ∧
    ("r2", Val.nan) ∈ (["r2", "mse"].map
        (fun m => (m, if m = "r2" then Val.nan else Val.fin 2))) := by
  refine ⟨by decide, by decide, ?_, ?_⟩
  · exact (c1_nonfinite_sentinel_raw_recorded ["r2", "mse"]
      (fun m => if m = "r2" then Val.nan else Val.fin 2) "r2" ⟨[], 0⟩).2.1
      (by decide)
  · exact (c1_nonfinite_sentinel_raw_recorded ["r2", "mse"]
      (fun m => if m = "r2" then Val.nan else Val.fin 2) "r2" ⟨[], 0⟩).2.2.2
      (by decide)

/-- The spec's wording of the larger-is-better metric family (§4.3):
coefficient of determination (`r2`, `r2_score`), Nash-Sutcliffe efficiency,
Kling-Gupta efficiency, modified/adjusted R², F1, accuracy. -/
def specMaximizingMetrics : List String :=
  ["r2", "r2_score", "nse", "kge", "r2_mod", "r2_adj", "f1_score", "accuracy"]

/-- The spec's derived scalar objective (§4.3, before sentinel substitution):
`1 - metric` when the designated validation metric is larger-is-better,
the raw metric otherwise. -/
def specDerivedObjective (metricOf : String → Val) (valMetric : String) : Val :=
  if valMetric ∈ specMaximizingMetrics then (metricOf valMetric).oneMinus
  else metricOf valMetric

/-- C3: the derived scalar objective of `_evaluate` (before any non-finite
sentinel substitution) coincides with the spec's description: `1 - metric` for
the larger-is-better validation metrics, the raw metric otherwise; and the
returned score is exactly that derived value with the sentinel applied. -/
theorem c3_objective_orientation
    (monitor : List String) (metricOf : String → Val) (valMetric : String)
    (st : IterState) :
    deriveValScore metricOf valMetric = specDerivedObjective metricOf valMetric ∧
    (evaluateTrial monitor metricOf valMetric st).score =
      (if (specDerivedObjective metricOf valMetric).isFinite then
        specDerivedObjective metricOf valMetric else Val.fin 9999) := by
  have hmem : (valMetric ∈ maximizingMetrics) ↔ (valMetric ∈ specMaximizingMetrics) := by
    simp [maximizingMetrics, specMaximizingMetrics]
    tauto
  have hd : deriveValScore metricOf valMetric = specDerivedObjective metricOf valMetric := by
    by_cases h : valMetric ∈ maximizingMetrics
    · simp [deriveValScore, specDerivedObjective, h, hmem.mp h]
    · have h2 : valMetric ∉ specMaximizingMetrics := fun hc => h (hmem.mpr hc)
      simp [deriveValScore, specDerivedObjective, h, h2]
  refine ⟨hd, ?_⟩
  by_cases h : (specDerivedObjective metricOf valMetric).isFinite
  · simp [evaluateTrial, hd, h]
  · simp [evaluateTrial, hd, h]

/-! ### `Experiments._populate_results` (experiments/_main.py lines 413-452) -/

/-- metric name → value. -/
abbrev MetricDict := List (String × Val)

/-- `"train"` / `"test"` → per-metric values. -/
abbrev SplitDict := List (String × MetricDict)

/-- variant name → split dictionaries (the in-memory `self.metrics` table,
dumped verbatim to `metrics.json` at the end of `fit`). -/
abbrev MetricsTable := List (String × SplitDict)

/-- The canonical variant name used as key everywhere internally: names not
already starting with `model_` get that marker prepended (lines 418-419,
559, 1505). -/
def canonicalName (s : String) : String :=
  if strStartsWith s "model_" then s else "model_" ++ s

/-- `Experiments._populate_results`, restricted to its effect on the
`self.metrics` table (the `self.features` std-dev bookkeeping operates on the
external arrays and is not referenced by the claims): compute every monitored
metric on the train and test (true, predicted) pairs — `trainMetricOf` /
`testMetricOf` stand for the external SeqMetrics computations — and store
`{'train': ..., 'test': ...}` under the canonicalized variant name. -/
def populateResults (tbl : MetricsTable) (monitor : List String)
    (trainMetricOf testMetricOf : String → Val) (modelType : String) :
    MetricsTable :=
  let key := if strStartsWith modelType "model_" then modelType
             else "model_" ++ modelType
  let trainMetrics := monitor.map (fun m => (m, trainMetricOf m))
  let testMetrics := monitor.map (fun m => (m, testMetricOf m))
  dictSet tbl key [("train", trainMetrics), ("test", testMetrics)]

/-- C2 counterexample: after a run of variant `A` (a case named `A`, not
already carrying the `model_` marker) the metrics table has NO entry under the
key `"A"` — the entry is stored under `"model_A"` instead, so
`metrics.json["A"]` fails. -/
theorem c2_no_entry_under_bare_name :
    dictGet (populateResults [] ["r2"] (fun _ => Val.fin 0) (fun _ => Val.fin 0)
      "A") "A" = none := by
  decide

/-- C2 (amended): after a fit run completes for a variant named `A`, the
metrics table contains an entry under the canonical key (`"model_A"` when `A`
does not already start with `model_`) mapping to exactly the two keys
`train` and `test`, and both the `test` and `train` dictionaries contain a
value for every configured monitor metric. -/
theorem c2_metrics_entry_under_canonical_name
    (tbl : MetricsTable) (monitor : List String)
    (trainMetricOf testMetricOf : String → Val) (A : String) :
    dictGet (populateResults tbl monitor trainMetricOf testMetricOf A)
        (canonicalName A) =
      some [("train", monitor.map (fun m => (m, trainMetricOf m))),
            ("test", monitor.map (fun m => (m, testMetricOf m)))] ∧
    (∀ m ∈ monitor,
      dictGet (monitor.map (fun m' => (m', testMetricOf m'))) m =
        some (testMetricOf m)) ∧
    (∀ m ∈ monitor,
      dictGet (monitor.map (fun m' => (m', trainMetricOf m'))) m =
        some (trainMetricOf m)) := by
  refine ⟨?_, ?_, ?_⟩
  · exact dictGet_dictSet _ _ _
  · intro m hm
    exact dictGet_map_self testMetricOf monitor m hm
  · intro m hm
    exact dictGet_map_self trainMetricOf monitor m hm

theorem c2_metrics_entry_under_canonical_name_witness :
    dictGet (populateResults [] ["r2", "mse"] (fun _ => Val.fin 1)
        (fun _ => Val.fin 2) "A") "model_A" =
      some [("train", [("r2", Val.fin 1), ("mse", Val.fin 1)]),
            ("test", [("r2", Val.fin 2), ("mse", Val.fin 2)])] ∧
    dictGet (["r2", "mse"].map (fun m' => (m', (fun _ => Val.fin 2) m'))) "r2" =
      some (Val.fin 2) := by
  constructor
  · exact (c2_metrics_entry_under_canonical_name [] ["r2", "mse"]
      (fun _ => Val.fin 1) (fun _ => Val.fin 2) "A").1
  · exact (c2_metrics_entry_under_canonical_name [] ["r2", "mse"]
      (fun _ => Val.fin 1) (fun _ => Val.fin 2) "A").2.1 "r2" (by decide)

/-! ### `consider_exclude` (lines 1497-1518) and the `fit` variant filter
(lines 282-297) -/

/-- The loop body of `consider_exclude`: for each (already canonicalized)
excluded name, assert it is among the known models, assert it is in the
list being filtered, and remove its first occurrence. A failed assertion is
an `Except.error` (Python `AssertionError`). -/
def considerExcludeGo (models : List String) :
    List String → List String → Except String (List String)
  | [], toFilter => Except.ok toFilter
  | e :: rest, toFilter =>
    if e ∈ models then
      if e ∈ toFilter then considerExcludeGo models rest (toFilter.erase e)
      else Except.error (e ++ " is not in models")
    else Except.error (e ++ " to exclude is not available")

/-- `consider_exclude(exclude, models, models_to_filter)`: canonicalize every
excluded name, then run the assert-and-remove loop. -/
def considerExclude (exclude models toFilter : List String) :
    Except String (List String) :=
  considerExcludeGo models (exclude.map canonicalName) toFilter

/-- `Experiments._check_include_arg` with `include=None`: the working list is
`self.models`, canonicalized, and every entry must already be a known model
name (lines 552-568). -/
def checkIncludeDefault (models : List String) : Except String (List String) :=
  let incl := models.map canonicalName
  if incl.all (fun e => decide (e ∈ models)) then Except.ok incl
  else Except.error "elements to include are not available"

/-- The variant set executed by `fit` (lines 282-297): resolve the default
include list, run `consider_exclude` (which removes excluded names from it and
raises on unknown names before the variant loop starts), then the loop body
additionally skips any `model_type` contained verbatim in the raw `exclude`
list (line 297). -/
def fitExecuted (models exclude : List String) : Except String (List String) :=
  match checkIncludeDefault models with
  | Except.error msg => Except.error msg
  | Except.ok incl =>
    match considerExclude exclude models incl with
    | Except.error msg => Except.error msg
    | Except.ok inc => Except.ok (inc.filter (fun m => decide (m ∉ exclude)))

theorem considerExcludeGo_error_of_unknown (models : List String) :
    ∀ (l toFilter : List String), (∃ e ∈ l, e ∉ models) →
      ∃ msg, considerExcludeGo models l toFilter = Except.error msg := by
  intro l
  induction l with
  | nil => intro toFilter h; rcases h with ⟨e, he, _⟩; cases he
  | cons e0 rest ih =>
    intro toFilter h
    by_cases h0 : e0 ∈ models
    · rcases h with ⟨e, he, hem⟩
      rcases List.mem_cons.mp he with h1 | h1
      · exact absurd (h1 ▸ h0) hem
      · by_cases h2 : e0 ∈ toFilter
        · rcases ih (toFilter.erase e0) ⟨e, h1, hem⟩ with ⟨msg, hmsg⟩
          exact ⟨msg, by simp [considerExcludeGo, h0, h2, hmsg]⟩
        · exact ⟨e0 ++ " is not in models", by simp [considerExcludeGo, h0, h2]⟩
    · exact ⟨e0 ++ " to exclude is not available", by simp [considerExcludeGo, h0]⟩

/-- C4: (1) for a variant set `{a, b, c}` (canonical names) and an exclude
list naming exactly `b`, the executed set is exactly `[a, c]`; (2) whenever
the exclude list contains a name that does not resolve to a known variant,
`fit` fails with an error — raised by `consider_exclude` before any variant
executes. -/
theorem c4_exclude_filter_and_unknown_error :
    (∀ a b c x : String,
      canonicalName a = a → canonicalName b = b → canonicalName c = c →
      canonicalName x = b → a ≠ b → c ≠ b → a ≠ x → c ≠ x →
      fitExecuted [a, b, c] [x] = Except.ok [a, c]) ∧
    (∀ models exclude : List String,
      (∃ e ∈ exclude, canonicalName e ∉ models) →
      ∃ msg, fitExecuted models exclude = Except.error msg) := by
  constructor
  · intro a b c x ha hb hc hx hab hcb hax hcx
    have hinc : checkIncludeDefault [a, b, c] = Except.ok [a, b, c] := by
      simp [checkIncludeDefault, ha, hb, hc]
    have herase : [a, b, c].erase b = [a, c] := by
      rw [List.erase_cons_tail (by simpa using hab), List.erase_cons_head]
    have hexc : considerExclude [x] [a, b, c] [a, b, c] = Except.ok [a, c] := by
      simp [considerExclude, hx, considerExcludeGo, herase]
    simp [fitExecuted, hinc, hexc, hax, hcx]
  · intro models exclude h
    rcases h with ⟨e, he, hem⟩
    cases hck : checkIncludeDefault models with
    | error msg => exact ⟨msg, by simp [fitExecuted, hck]⟩
    | ok incl =>
      have hgo : ∃ msg,
          considerExcludeGo models (exclude.map canonicalName) incl =
            Except.error msg :=
        considerExcludeGo_error_of_unknown models (exclude.map canonicalName)
          incl ⟨canonicalName e, List.mem_map.mpr ⟨e, he, rfl⟩, hem⟩
      rcases hgo with ⟨msg, hmsg⟩
      exact ⟨msg, by simp [fitExecuted, hck, considerExclude, hmsg]⟩

theorem c4_exclude_filter_and_unknown_error_witness :
    fitExecuted ["model_A", "model_B", "model_C"] ["B"] =
      Except.ok ["model_A", "model_C"] ∧
    ∃ msg, fitExecuted ["model_A"] ["D"] = Except.error msg := by
  constructor
  · exact c4_exclude_filter_and_unknown_error.1 "model_A" "model_B" "model_C" "B"
      (by decide) (by decide) (by decide) (by decide)
      (by decide) (by decide) (by decide) (by decide)
  · exact c4_exclude_filter_and_unknown_error.2 ["model_A"] ["D"]
      ⟨"D", by decide, by decide⟩

/-! ### Parameter grids (hyperopt/_space.py: `Real.grid` lines 115-125,
`Integer.grid` lines 239-252) -/

/-- Python truthiness of an optional integer argument (`if self.num_samples:`
is false for both `None` and `0`). -/
def optNatTruthy : Option ℕ → Bool
  | none => false
  | some k => decide (k ≠ 0)

/-- Python truthiness of an optional rational argument. -/
def optQTruthy : Option ℚ → Bool
  | none => false
  | some q => decide (q ≠ 0)

/-- Python truthiness of an optional integer-typed argument. -/
def optZTruthy : Option ℤ → Bool
  | none => false
  | some z => decide (z ≠ 0)

/-- `np.linspace(low, high, num)`: `num` evenly spaced samples, endpoints
included (for `num = 1` numpy returns `[low]`). -/
def linspaceQ (low high : ℚ) (num : ℕ) : List ℚ :=
  if num = 1 then [low]
  else (List.range num).map
    (fun (i : ℕ) => low + (i : ℚ) * (high - low) / ((num : ℚ) - 1))

/-- `np.arange(low, high, step)`: `low + i*step` for `0 ≤ i < ⌈(high-low)/step⌉`
(empty when the count is non-positive; numpy rejects `step = 0`, modelled as
the empty list). -/
def arangeQ (low high step : ℚ) : List ℚ :=
  if step = 0 then []
  else (List.range (max 0 ⌈(high - low) / step⌉).toNat).map
    (fun (i : ℕ) => low + (i : ℚ) * step)

/-- C-style float→int cast (`dtype=np.int32` / `int(val)`): truncation toward
zero. -/
def truncQ (q : ℚ) : ℤ := if 0 ≤ q then ⌊q⌋ else ⌈q⌉

/-- The `Real.grid` property setter (lines 115-125): an explicit grid argument
wins; otherwise `num_samples` produces a linspace; otherwise `step` produces an
arange; otherwise there is no grid. -/
def realGridOf (low high : ℚ) (numSamples : Option ℕ) (step : Option ℚ)
    (grid : Option (List ℚ)) : Option (List ℚ) :=
  match grid with
  | none =>
    if optNatTruthy numSamples then
      some (linspaceQ low high (numSamples.getD 0))
    else if optQTruthy step then
      some (arangeQ low high (step.getD 0))
    else none
  | some x => some x

/-- The `Integer.grid` property setter (lines 239-252): as for `Real`, but the
linspace is cast to `np.int32` and the arange is integer-valued. -/
def integerGridOf (low high : ℤ) (numSamples : Option ℕ) (step : Option ℤ)
    (grid : Option (List ℤ)) : Option (List ℤ) :=
  match grid with
  | none =>
    if optNatTruthy numSamples then
      some ((linspaceQ low high (numSamples.getD 0)).map truncQ)
    else if optZTruthy step then
      some (if step.getD 0 = 0 then []
            else (List.range
                (max 0 ⌈((high : ℚ) - (low : ℚ)) / (step.getD 0 : ℚ)⌉).toNat).map
              (fun (i : ℕ) => low + (i : ℤ) * step.getD 0))
    else none
  | some x => some x

theorem linspaceQ_length (low high : ℚ) (k : ℕ) :
    (linspaceQ low high k).length = k := by
  by_cases h : k = 1
  · simp [linspaceQ, h]
  · rw [linspaceQ, if_neg h, List.length_map, List.length_range]

theorem linspaceQ_head (low high : ℚ) (k : ℕ) (hk : 0 < k) :
    (linspaceQ low high k).head? = some low := by
  cases k with
  | zero => cases hk
  | succ j =>
    by_cases h : j + 1 = 1
    · simp [linspaceQ, h]
    · rw [linspaceQ, if_neg h, List.range_succ_eq_map]
      simp

theorem truncQ_intCast (n : ℤ) : truncQ (n : ℚ) = n := by
  by_cases h : (0 : ℚ) ≤ (n : ℚ)
  · simp [truncQ, h]
  · simp [truncQ, h]

/-- C8 counterexample: at `num_samples = 0` the claim fails, because Python
truthiness (`if self.num_samples:`) treats 0 as absent: with no `step`, no
grid is derived at all (instead of a grid of length 0), and with `step = 2`
the step branch takes precedence and derives `arange(0, 1, 2)` of length
1 ≠ 0. -/
theorem c8_num_samples_zero_counterexample :
    realGridOf 0 1 (some 0) none none = none ∧
    integerGridOf 0 1 (some 0) none none = none ∧
    realGridOf 0 1 (some 0) (some 2) none = some (arangeQ 0 1 2) ∧
    (arangeQ 0 1 2).length = 1 := by
  refine ⟨rfl, rfl, rfl, ?_⟩
  have hc : ⌈((1 : ℚ) - 0) / 2⌉ = 1 := by rw [Int.ceil_eq_iff]; norm_num
  unfold arangeQ
  rw [if_neg (by norm_num : ¬(2 : ℚ) = 0), List.length_map, List.length_range,
    hc]
  decide

/-- C8 (amended): for a `Real` or `Integer` parameter constructed with
`num_samples = k` for `k ≥ 1` and no explicit grid, the derived grid exists
and has length exactly `k` — regardless of any `step` argument
(`num_samples` takes precedence) — and starts at `low`. -/
theorem c8_num_samples_grid_length (low high : ℚ) (lowI highI : ℤ) (k : ℕ)
    (stepR : Option ℚ) (stepI : Option ℤ) (hk : 0 < k) :
    (∃ g, realGridOf low high (some k) stepR none = some g ∧
      g.length = k ∧ g.head? = some low) ∧
    (∃ g, integerGridOf lowI highI (some k) stepI none = some g ∧
      g.length = k ∧ g.head? = some lowI) := by
  have hkt : optNatTruthy (some k) = true := by
    simp [optNatTruthy, Nat.pos_iff_ne_zero.mp hk]
  constructor
  · refine ⟨linspaceQ low high k, ?_, linspaceQ_length low high k,
      linspaceQ_head low high k hk⟩
    simp [realGridOf, hkt]
  · refine ⟨(linspaceQ lowI highI k).map truncQ, ?_, ?_, ?_⟩
    · simp [integerGridOf, hkt]
    · simp [linspaceQ_length]
    · rw [List.head?_map, linspaceQ_head _ _ _ hk]
      simp [truncQ_intCast]

theorem c8_num_samples_grid_length_witness :
    ∃ g, realGridOf 0 1 (some 5) (some 7) none = some g ∧
      g.length = 5 ∧ g.head? = some 0 := by
  exact (c8_num_samples_grid_length 0 1 0 1 5 (some 7) (some 7) (by decide)).1

/-! ### Parameter serialization (hyperopt/_space.py: `Real.serialize` lines
159-163, `Integer.serialize` lines 280-284, `Categorical.serialize` lines
332-336) -/

/-- JSON-like value produced by `Jsonize` on a parameter attribute. -/
inductive JVal where
  | num (q : ℚ)
  | str (s : String)
  | arr (l : List JVal)
  | nul
deriving Repr

/-- The serialized dictionary (`_raum`). -/
abbrev JDict := List (String × JVal)

def jOptNat : Option ℕ → JVal
  | none => .nul
  | some k => .num k

def jOptQ : Option ℚ → JVal
  | none => .nul
  | some q => .num q

def jOptZ : Option ℤ → JVal
  | none => .nul
  | some z => .num z

def jOptListQ : Option (List ℚ) → JVal
  | none => .nul
  | some l => .arr (l.map (fun q => .num q))

def jOptListZ : Option (List ℤ) → JVal
  | none => .nul
  | some l => .arr (l.map (fun z => .num z))

/-- A constructed `Real` parameter (its `__dict__` after `__init__`). -/
structure RealP where
  low : ℚ
  high : ℚ
  numSamples : Option ℕ
  step : Option ℚ
  gridArg : Option (List ℚ)
  name : String
  prior : String

/-- A constructed `Integer` parameter. -/
structure IntegerP where
  low : ℤ
  high : ℤ
  numSamples : Option ℕ
  step : Option ℤ
  gridArg : Option (List ℤ)
  name : String
  prior : String

/-- A constructed `Categorical` parameter. -/
structure CategoricalP where
  categories : List String
  name : String
  prior : Option (List ℚ)

/-- `Real.serialize`: Jsonized `__dict__` (the instance attributes set during
`__init__`: the instance-level counter, `num_samples`, `step`, the skopt
dimension fields, and the computed `_grid`) updated with the type tag
`'Real'`. -/
def RealP.serialize (p : RealP) : JDict :=
  dictSet [("counter", JVal.num 1),
           ("num_samples", jOptNat p.numSamples),
           ("step", jOptQ p.step),
           ("low", JVal.num p.low),
           ("high", JVal.num p.high),
           ("prior", JVal.str p.prior),
           ("name", JVal.str p.name),
           ("_grid", jOptListQ (realGridOf p.low p.high p.numSamples p.step
              p.gridArg))]
    "type" (JVal.str "Real")

/-- `Integer.serialize`: as for `Real`, with the type tag `'Integer'`. -/
def IntegerP.serialize (p : IntegerP) : JDict :=
  dictSet [("counter", JVal.num 1),
           ("num_samples", jOptNat p.numSamples),
           ("step", jOptZ p.step),
           ("low", JVal.num p.low),
           ("high", JVal.num p.high),
           ("prior", JVal.str p.prior),
           ("name", JVal.str p.name),
           ("_grid", jOptListZ (integerGridOf p.low p.high p.numSamples p.step
              p.gridArg))]
    "type" (JVal.str "Integer")

/-- `Categorical.serialize` (lines 332-336): Jsonized `__dict__` updated with
the literal type tag `'Integer'` — the tag written by the source at line 335,
not the parameter's own kind. -/
def CategoricalP.serialize (p : CategoricalP) : JDict :=
  dictSet [("categories", JVal.arr (p.categories.map (fun c => JVal.str c))),
           ("prior", jOptListQ p.prior),
           ("name", JVal.str p.name)]
    "type" (JVal.str "Integer")

/-- The three parameter kinds. -/
inductive PKind where
  | real
  | integer
  | categorical
deriving DecidableEq, Repr

/-- Modelled from the spec: the deserialization half of the persistence
round-trip is not under src/ (only the serializers are); §4.1(c) says the
serialized dictionary carries "a type tag + all constructor fields, sufficient
to reconstruct an equivalent Parameter", so reconstruction dispatches on the
`'type'` tag to choose which Parameter kind to rebuild. -/
def deserializeKind (d : JDict) : Option PKind :=
  match dictGet d "type" with
  | some (JVal.str "Real") => some PKind.real
  | some (JVal.str "Integer") => some PKind.integer
  | some (JVal.str "Categorical") => some PKind.categorical
  | _ => none

/-- C5 (code bug): `Real` and `Integer` serialize with a tag identifying their
own kind, but `Categorical.serialize` writes the tag `'Integer'`, so the
serialized form of a `Categorical` does not identify its own kind and
tag-dispatch deserialization reconstructs the wrong kind of parameter. -/
theorem c5_categorical_type_tag_bug :
    deserializeKind (RealP.serialize
      ⟨1/2, 1, none, none, none, "lr", "uniform"⟩) = some PKind.real ∧
    deserializeKind (IntegerP.serialize
      ⟨16, 128, none, none, none, "units", "uniform"⟩) = some PKind.integer ∧
    dictGet (CategoricalP.serialize ⟨["relu", "tanh"], "act", none⟩) "type" =
      some (JVal.str "Integer") ∧
    deserializeKind (CategoricalP.serialize ⟨["relu", "tanh"], "act", none⟩) =
      some PKind.integer ∧
    some PKind.integer ≠ some PKind.categorical := by
  exact ⟨rfl, rfl, rfl, rfl, by decide⟩

/-! ### `Experiments.sort_models_by_metric` (experiments/_main.py lines
1077-1106) -/

/-- One row of the sorted dataframe: variant name with its train and test
values of the chosen metric. -/
structure MRow where
  name : String
  train : Val
  test : Val
deriving DecidableEq, Repr

/-- Build the dataframe rows `v['train'][metric_name]` / `v['test'][metric_name]`
for every variant in `self.metrics`; a missing key is a Python `KeyError`. -/
def extractRows (metricName : String) : MetricsTable → Except String (List MRow)
  | [] => Except.ok []
  | (name, sd) :: rest =>
    match dictGet sd "train" with
    | none => Except.error "KeyError: train"
    | some td =>
      match dictGet td metricName with
      | none => Except.error ("KeyError: " ++ metricName)
      | some tv =>
        match dictGet sd "test" with
        | none => Except.error "KeyError: test"
        | some sd2 =>
          match dictGet sd2 metricName with
          | none => Except.error ("KeyError: " ++ metricName)
          | some sv =>
            match extractRows metricName rest with
            | Except.error e => Except.error e
            | Except.ok rs => Except.ok ({name := name, train := tv, test := sv} :: rs)

/-- The column `df[sort_by]` selects for a row. -/
def rowKey (sortBy : String) (r : MRow) : Val :=
  if sortBy = "train" then r.train else r.test

/-- `sort_values(ascending=False)` ordering with `na_position='last'`:
`a` may precede `b` iff `a` is NaN only when `b` is, and otherwise is `≥ b`
in the IEEE total order on non-NaN values. -/
def descBefore (a b : Val) : Bool :=
  match a, b with
  | .nan, .nan => true
  | .nan, _ => false
  | _, .nan => true
  | .inf, _ => true
  | _, .inf => false
  | .fin q, .fin r => decide (r ≤ q)
  | .fin _, .ninf => true
  | .ninf, .fin _ => false
  | .ninf, .ninf => true

def rowBefore (sortBy : String) (a b : MRow) : Prop :=
  descBefore (rowKey sortBy a) (rowKey sortBy b) = true

instance (sortBy : String) : DecidableRel (rowBefore sortBy) :=
  fun a b => instDecidableEqBool (descBefore (rowKey sortBy a) (rowKey sortBy b)) true

/-- `series > cutoff` on floats (NaN compares false). -/
def valGtQ (v : Val) (c : ℚ) : Bool :=
  match v with
  | .fin q => decide (c < q)
  | .inf => true
  | .ninf => false
  | .nan => false

/-- `series < cutoff` on floats (NaN compares false). -/
def valLtQ (v : Val) (c : ℚ) : Bool :=
  match v with
  | .fin q => decide (q < c)
  | .inf => false
  | .ninf => true
  | .nan => false

/-- `Experiments.sort_models_by_metric`: build the train/test dataframe for
the chosen metric, drop NaN rows when `ignore_nans`, sort descending by the
`sort_by` column, then apply the cutoff: the code tests only
`cutoff_type == "greater"` (keep `> cutoff_val`) and sends every other cutoff
type — including `greater_equal` and `less_equal` — into the `else` branch,
which keeps `< cutoff_val` (lines 1099-1104). -/
def sortModelsByMetric (tbl : MetricsTable) (metricName : String)
    (cutoffVal : Option ℚ) (cutoffType : Option String) (ignoreNans : Bool)
    (sortBy : String) : Except String (List MRow) :=
  if sortBy = "train" ∨ sortBy = "test" then
    match extractRows metricName tbl with
    | Except.error e => Except.error e
    | Except.ok rows =>
      let rows := if ignoreNans then
          rows.filter (fun r => decide (r.train ≠ Val.nan ∧ r.test ≠ Val.nan))
        else rows
      let rows := List.insertionSort (rowBefore sortBy) rows
      match cutoffType with
      | none => Except.ok rows
      | some ct =>
        match cutoffVal with
        | none => Except.error "AssertionError: cutoff_val is None"
        | some cv =>
          if ct = "greater" then
            Except.ok (rows.filter (fun r => valGtQ (rowKey sortBy r) cv))
          else
            Except.ok (rows.filter (fun r => valLtQ (rowKey sortBy r) cv))
  else Except.error "KeyError: sort_by"

/-- C6 (code bug): with `cutoff_type="greater_equal"` and `cutoff_val=5`, a
variant whose test metric is 9 — which the claim says must be kept, since
9 ≥ 5 — is dropped (the non-`greater` branch keeps `metric < cutoff_val`)
while a variant at 2 is kept; `cutoff_type="greater"` behaves as claimed on
the same table. -/
theorem c6_cutoff_type_collapsed_to_less :
    sortModelsByMetric
        [("model_A", [("train", [("r2", Val.fin 9)]),
                      ("test", [("r2", Val.fin 9)])]),
         ("model_B", [("train", [("r2", Val.fin 2)]),
                      ("test", [("r2", Val.fin 2)])])]
        "r2" (some 5) (some "greater_equal") true "test" =
      Except.ok [{name := "model_B", train := Val.fin 2,
                  test := Val.fin 2}] ∧
    sortModelsByMetric
        [("model_A", [("train", [("r2", Val.fin 9)]),
                      ("test", [("r2", Val.fin 9)])]),
         ("model_B", [("train", [("r2", Val.fin 2)]),
                      ("test", [("r2", Val.fin 2)])])]
        "r2" (some 5) (some "greater") true "test" =
      Except.ok [{name := "model_A", train := Val.fin 9,
                  test := Val.fin 9}] := by
  constructor
  · rfl
  · rfl

/-! ### `Experiments.eval_best` / `Experiments.train_best` (experiments/
_main.py lines 376-411) -/

/-- What a post-optimization step did. -/
inductive PostOptOutcome where
  | retrained (builtWith : String)
  | evaluatedCheckpoints (populatedFrom : List String)
deriving DecidableEq, Repr

/-- `Experiments.train_best`: rebuild and fully retrain a fresh model with the
optimizer's best parameter assignment (`{'layers': ...}` when the best
parameters carry a lookback > 1, else the variant's own model type), then
predict and populate the results. -/
def trainBestOutcome (bestParas : List (String × ℚ)) (modelType : String) :
    PostOptOutcome :=
  PostOptOutcome.retrained
    (if (dictGet bestParas "lookback").getD 1 > 1 then "layers" else modelType)

/-- `Experiments.eval_best`: collect the ranked persisted models from the
search directory (`clear_weights`, external); when fewer than one exists fall
back to `train_best`, otherwise reload each checkpoint and populate results
from the rank-1 model (name starting `1_`). -/
def evalBestOutcome (bestModels : List String)
    (bestParas : List (String × ℚ)) (modelType : String) : PostOptOutcome :=
  if bestModels.length < 1 then trainBestOutcome bestParas modelType
  else PostOptOutcome.evaluatedCheckpoints
    (bestModels.filter (fun mod => strStartsWith mod "1_"))

/-- C7: when the search directory holds no ranked model checkpoint,
`eval_best` falls back to `train_best`: its outcome is exactly the
`train_best` outcome, i.e. a rebuilt-and-retrained model — not a failure and
not an empty result. -/
theorem c7_eval_best_falls_back_to_train_best
    (bestModels : List String) (bestParas : List (String × ℚ))
    (modelType : String) (hempty : bestModels = []) :
    evalBestOutcome bestModels bestParas modelType =
      trainBestOutcome bestParas modelType ∧
    ∃ m, evalBestOutcome bestModels bestParas modelType =
      PostOptOutcome.retrained m := by
  subst hempty
  exact ⟨rfl, ⟨_, rfl⟩⟩

theorem c7_eval_best_falls_back_to_train_best_witness :
    evalBestOutcome [] [("lr", 1/100)] "MLP" =
      trainBestOutcome [("lr", 1/100)] "MLP" ∧
    ∃ m, evalBestOutcome [] [("lr", 1/100)] "MLP" =
      PostOptOutcome.retrained m :=
  c7_eval_best_falls_back_to_train_best [] [("lr", 1/100)] "MLP" rfl

/-! ### `DLRegressionExperiments.static_space` / `static_x0`
(experiments/_dl.py lines 109-129) -/

/-- An element appended to the static search space: `_space.append(...)`
appends the whole `lookback_space` list as one element, and the single
batch-size and learning-rate parameters. -/
inductive StaticEntry where
  | lookback (ps : List String)
  | batchSize (p : String)
  | lr (p : String)
deriving DecidableEq, Repr

/-- The mutable static-space configuration of a `DLRegressionExperiments`:
`lookback_space` is a list (default `[]`, falsy), `batch_size_space` and
`lr_space` are single parameter objects (`none` models a falsy user
assignment), and `model_kws` holds the user's keyword overrides. -/
structure DLStatic where
  lookbackSpace : List String
  batchSizeSpace : Option String
  lrSpace : Option String
  modelKws : List (String × ℚ)

/-- `DLRegressionExperiments.static_space` (lines 109-118). -/
def staticSpace (st : DLStatic) : List StaticEntry :=
  (if st.lookbackSpace ≠ [] then [StaticEntry.lookback st.lookbackSpace]
   else []) ++
  (match st.batchSizeSpace with
   | some p => [StaticEntry.batchSize p]
   | none => []) ++
  (match st.lrSpace with
   | some p => [StaticEntry.lr p]
   | none => [])

/-- `DLRegressionExperiments.static_x0` (lines 120-129): one default-point
entry per truthy static space, each read from `model_kws` with the documented
fallback (lookback 5, batch size 32, learning rate 0.001). -/
def staticX0 (st : DLStatic) : List ℚ :=
  (if st.lookbackSpace ≠ [] then [(dictGet st.modelKws "lookback").getD 5]
   else []) ++
  (match st.batchSizeSpace with
   | some _ => [(dictGet st.modelKws "batch_size").getD 32]
   | none => []) ++
  (match st.lrSpace with
   | some _ => [(dictGet st.modelKws "lr").getD (1/1000)]
   | none => [])

/-- The spec's documented per-parameter default (§4.2): lookback 5, batch
size 32, learning rate 0.001. -/
def staticDefaultOf : StaticEntry → ℚ
  | .lookback _ => 5
  | .batchSize _ => 32
  | .lr _ => 1/1000

/-- C9: the static default point has exactly one entry per enabled static
parameter (`len(static_x0) == len(static_space)` for every state), and when
the user supplied no override every entry is the documented default of the
static parameter at the same position. -/
theorem c9_static_x0_matches_static_space (st : DLStatic) :
    (staticX0 st).length = (staticSpace st).length ∧
    (dictGet st.modelKws "lookback" = none →
     dictGet st.modelKws "batch_size" = none →
     dictGet st.modelKws "lr" = none →
     staticX0 st = (staticSpace st).map staticDefaultOf) := by
  constructor
  · by_cases hl : st.lookbackSpace = [] <;>
      cases hb : st.batchSizeSpace <;> cases hr : st.lrSpace <;>
      simp [staticX0, staticSpace, hl, hb, hr]
  · intro h1 h2 h3
    by_cases hl : st.lookbackSpace = [] <;>
      cases hb : st.batchSizeSpace <;> cases hr : st.lrSpace <;>
      simp [staticX0, staticSpace, staticDefaultOf, hl, hb, hr, h1, h2, h3]

theorem c9_static_x0_matches_static_space_witness :
    (staticX0 ⟨["lb"], some "bs", some "lr", []⟩).length =
      (staticSpace ⟨["lb"], some "bs", some "lr", []⟩).length ∧
    staticX0 ⟨["lb"], some "bs", some "lr", []⟩ =
      (staticSpace ⟨["lb"], some "bs", some "lr", []⟩).map staticDefaultOf := by
  constructor
  · exact (c9_static_x0_matches_static_space ⟨["lb"], some "bs", some "lr", []⟩).1
  · exact (c9_static_x0_matches_static_space
      ⟨["lb"], some "bs", some "lr", []⟩).2 rfl rfl rfl

/-! ### Auto-naming of unnamed parameters (hyperopt/_space.py: `Real.__init__`
lines 74-101, `Integer.__init__` lines 194-224) -/

/-- One construction of an unnamed parameter, given the current class-level
counter. `self.counter += 1` desugars to `self.counter = self.counter + 1`:
the read falls back to the class attribute (a fresh instance has no own
`counter`), and the write creates an instance attribute — the class attribute
is never modified. The auto-name then reads the instance attribute. Returns
(class counter after construction, assigned name). -/
def constructUnnamed (kind : String) (classCounter : ℕ) : ℕ × String :=
  let readValue := classCounter
  let instCounter := readValue + 1
  (classCounter, kind ++ "_" ++ Nat.repr instCounter)

/-- Construct `n` unnamed parameters of one kind in sequence, threading the
class-level counter, and collect the assigned names. -/
def constructSeq (kind : String) : ℕ → ℕ → List String
  | 0, _ => []
  | n + 1, c =>
    let r := constructUnnamed kind c
    r.2 :: constructSeq kind n r.1

/-- The names assigned to `n` successive unnamed parameters of one kind over
the process lifetime (class counter starts at 0). -/
def unnamedNames (kind : String) (n : ℕ) : List String := constructSeq kind n 0

theorem constructSeq_replicate (kind : String) (n c : ℕ) :
    constructSeq kind n c =
      List.replicate n (kind ++ "_" ++ Nat.repr (c + 1)) := by
  induction n with
  | zero => rfl
  | succ m ih => simp [constructSeq, constructUnnamed, List.replicate, ih]

/-- C10: every unnamed `Real` is auto-named `real_1` and every unnamed
`Integer` is auto-named `integer_1`, however many were constructed before
(the instance-level `self.counter += 1` never advances the class counter);
consequently any run constructing at least two unnamed parameters of one kind
produces duplicate names, so auto-naming cannot guarantee uniqueness. -/
theorem c10_auto_names_never_advance
    (n : ℕ) (hn : 2 ≤ n) :
    unnamedNames "real" n = List.replicate n "real_1" ∧
    unnamedNames "integer" n = List.replicate n "integer_1" ∧
    ¬ (unnamedNames "real" n).Nodup ∧
    ¬ (unnamedNames "integer" n).Nodup := by
  have hr : unnamedNames "real" n = List.replicate n "real_1" := by
    rw [unnamedNames, constructSeq_replicate]; rfl
  have hi : unnamedNames "integer" n = List.replicate n "integer_1" := by
    rw [unnamedNames, constructSeq_replicate]; rfl
  refine ⟨hr, hi, ?_, ?_⟩
  · rw [hr, List.nodup_replicate]
    omega
  · rw [hi, List.nodup_replicate]
    omega

theorem c10_auto_names_never_advance_witness :
    unnamedNames "real" 2 = ["real_1", "real_1"] ∧
    unnamedNames "integer" 2 = ["integer_1", "integer_1"] := by
  have h := c10_auto_names_never_advance 2 (by decide)
  exact ⟨h.1, h.2.1⟩

end AI4W
